import Mathlib

/-!
Shallow embedding of `app/src/icon.c` (scrcpy icon loading pipeline).

The unit decodes a single still-image file into an SDL surface:
`get_icon_path` resolves the file path, `decode_image` runs the
FFmpeg container/codec/frame pipeline, `to_sdl_pixel_format` is the fixed
packed-RGB mapping table, `load_from_path` validates the decoded frame and
wraps it, `scrcpy_icon_load` / `scrcpy_icon_destroy` are the public entry
points.

External framework calls (FFmpeg, SDL, getenv, strdup) are modelled by an
environment record fixing the outcome of each call; resource
acquisitions and releases are recorded in an explicit event trace so that
the cleanup (`goto`-label) structure of the C code can be reasoned about.
-/

/-- The heap resources acquired and released by the pipeline. -/
inductive Res
  | fmtCtx    -- AVFormatContext (container handle)
  | codecCtx  -- AVCodecContext (decoder context)
  | frame     -- AVFrame (decoded frame buffer)
  | packet    -- AVPacket (compressed-unit buffer)
  | pathStr   -- the heap-allocated icon path string
  | surface   -- the SDL_Surface structure
  deriving DecidableEq, BEq, Repr

/-- Events of one pipeline execution: resource acquisition/release plus the
two decoder interaction points (packet submit, frame request). -/
inductive Ev
  | acq (r : Res)
  | rel (r : Res)
  | sendPkt   -- avcodec_send_packet was invoked
  | recvFrm   -- avcodec_receive_frame was invoked
  deriving DecidableEq, BEq, Repr

/-- The AVPixelFormat values relevant to the mapping table of
`to_sdl_pixel_format`, together with representative unmapped formats
(packed RGB absent from the table, planar, non-RGB, invalid). -/
inductive AVPixelFormat
  | RGB24 | BGR24 | ARGB | RGBA | ABGR | BGRA
  | RGB565BE | RGB555BE | BGR565BE | BGR555BE | RGB444BE | BGR444BE
  | RGB565LE   -- packed RGB, not in the table
  | RGB48BE    -- packed RGB, not in the table
  | YUV420P    -- planar, non-RGB
  | GRAY8      -- packed but non-RGB
  | NONE       -- invalid: has no pixel-format descriptor
  deriving DecidableEq, BEq, Repr

/-- The SDL pixel-format tags appearing in `to_sdl_pixel_format`. -/
inductive SDLPixelFormat
  | UNKNOWN
  | RGB24 | BGR24 | ARGB32 | RGBA32 | ABGR32 | BGRA32
  | RGB565 | RGB555 | BGR565 | BGR555 | RGB444 | BGR444
  deriving DecidableEq, BEq, Repr

/-- The pixel-format descriptor fields read by `load_from_path`:
the AV_PIX_FMT_FLAG_RGB / AV_PIX_FMT_FLAG_PLANAR bits of `desc->flags`,
the name (used only for logging) and the summed component depth returned
by `av_get_bits_per_pixel`. -/
structure AVPixFmtDescriptor where
  name : String
  flagRGB : Bool
  flagPlanar : Bool
  bpp : Nat
  deriving DecidableEq, BEq, Repr

def descRGB24 : AVPixFmtDescriptor :=
  { name := "rgb24", flagRGB := true, flagPlanar := false, bpp := 24 }

def descBGR24 : AVPixFmtDescriptor :=
  { name := "bgr24", flagRGB := true, flagPlanar := false, bpp := 24 }

def descARGB : AVPixFmtDescriptor :=
  { name := "argb", flagRGB := true, flagPlanar := false, bpp := 32 }

def descRGBA : AVPixFmtDescriptor :=
  { name := "rgba", flagRGB := true, flagPlanar := false, bpp := 32 }

def descABGR : AVPixFmtDescriptor :=
  { name := "abgr", flagRGB := true, flagPlanar := false, bpp := 32 }

def descBGRA : AVPixFmtDescriptor :=
  { name := "bgra", flagRGB := true, flagPlanar := false, bpp := 32 }

def descRGB565BE : AVPixFmtDescriptor :=
  { name := "rgb565be", flagRGB := true, flagPlanar := false, bpp := 16 }

def descRGB555BE : AVPixFmtDescriptor :=
  { name := "rgb555be", flagRGB := true, flagPlanar := false, bpp := 15 }

def descBGR565BE : AVPixFmtDescriptor :=
  { name := "bgr565be", flagRGB := true, flagPlanar := false, bpp := 16 }

def descBGR555BE : AVPixFmtDescriptor :=
  { name := "bgr555be", flagRGB := true, flagPlanar := false, bpp := 15 }

def descRGB444BE : AVPixFmtDescriptor :=
  { name := "rgb444be", flagRGB := true, flagPlanar := false, bpp := 12 }

def descBGR444BE : AVPixFmtDescriptor :=
  { name := "bgr444be", flagRGB := true, flagPlanar := false, bpp := 12 }

def descRGB565LE : AVPixFmtDescriptor :=
  { name := "rgb565le", flagRGB := true, flagPlanar := false, bpp := 16 }

def descRGB48BE : AVPixFmtDescriptor :=
  { name := "rgb48be", flagRGB := true, flagPlanar := false, bpp := 48 }

def descYUV420P : AVPixFmtDescriptor :=
  { name := "yuv420p", flagRGB := false, flagPlanar := true, bpp := 12 }

def descGRAY8 : AVPixFmtDescriptor :=
  { name := "gray", flagRGB := false, flagPlanar := false, bpp := 8 }

/-- Embedding of `av_pix_fmt_desc_get`: the (fixed, external) descriptor table of
libavutil, restricted to the formats modelled here; `AV_PIX_FMT_NONE`
(and any other invalid value) yields NULL. -/
def av_pix_fmt_desc_get : AVPixelFormat → Option AVPixFmtDescriptor
  | AVPixelFormat.RGB24 => some descRGB24
  | AVPixelFormat.BGR24 => some descBGR24
  | AVPixelFormat.ARGB => some descARGB
  | AVPixelFormat.RGBA => some descRGBA
  | AVPixelFormat.ABGR => some descABGR
  | AVPixelFormat.BGRA => some descBGRA
  | AVPixelFormat.RGB565BE => some descRGB565BE
  | AVPixelFormat.RGB555BE => some descRGB555BE
  | AVPixelFormat.BGR565BE => some descBGR565BE
  | AVPixelFormat.BGR555BE => some descBGR555BE
  | AVPixelFormat.RGB444BE => some descRGB444BE
  | AVPixelFormat.BGR444BE => some descBGR444BE
  | AVPixelFormat.RGB565LE => some descRGB565LE
  | AVPixelFormat.RGB48BE => some descRGB48BE
  | AVPixelFormat.YUV420P => some descYUV420P
  | AVPixelFormat.GRAY8 => some descGRAY8
  | AVPixelFormat.NONE => none

/-- Embedding of `av_get_bits_per_pixel`: sum of the component depths of the format. -/
def av_get_bits_per_pixel (desc : AVPixFmtDescriptor) : Nat :=
  desc.bpp

/-- The fields of the decoded AVFrame read by `load_from_path`:
`frame->format`, `frame->width`, `frame->height`, `frame->linesize[0]`
and `frame->data[0]` (the first-plane pixel memory, modelled as an
abstract address). -/
structure AVFrame where
  format : AVPixelFormat
  width : Int
  height : Int
  linesize0 : Int
  data0 : Nat
  deriving DecidableEq, BEq, Repr

/-- Outcomes of the external FFmpeg calls made by `decode_image`, one field
per call site, in source order.  `Int`-valued fields are the status codes
the C code compares against 0; `Bool`-valued fields tell whether the
corresponding allocation/lookup returned non-NULL. -/
structure DecodeEnv where
  alloc_ctx_ok : Bool          -- avformat_alloc_context() != NULL
  open_input_ret : Int         -- avformat_open_input
  find_stream_info_ret : Int   -- avformat_find_stream_info
  find_best_stream_ret : Int   -- av_find_best_stream (stream index or error)
  find_decoder_ok : Bool       -- avcodec_find_decoder() != NULL
  alloc_codec_ctx_ok : Bool    -- avcodec_alloc_context3() != NULL
  parameters_to_context_ret : Int -- avcodec_parameters_to_context
  open2_ret : Int              -- avcodec_open2
  frame_alloc_ok : Bool        -- av_frame_alloc() != NULL
  packet_alloc_ok : Bool       -- av_packet_alloc() != NULL
  read_frame_ret : Int         -- av_read_frame
  send_packet_ret : Int        -- avcodec_send_packet
  receive_frame_ret : Int      -- avcodec_receive_frame
  decoded : AVFrame            -- frame contents on a successful decode
  deriving DecidableEq, Repr

/-- The event trace of a `decode_image` run in which every stage succeeds:
all four resources acquired, one submit and one request, then the
`av_packet_free` / `close_codec` / `free_codec_ctx` / `close_input` /
`free_ctx` teardown (the frame is NOT released: it is returned). -/
def decodeSuccessTrace : List Ev :=
  [Ev.acq Res.fmtCtx, Ev.acq Res.codecCtx, Ev.acq Res.frame, Ev.acq Res.packet,
   Ev.sendPkt, Ev.recvFrm,
   Ev.rel Res.packet, Ev.rel Res.codecCtx, Ev.rel Res.fmtCtx]

/-- The possible exits of `decode_image`: one constructor per early-exit
branch (`return NULL` or `goto`) of the C function, in source order, plus
the successful fall-through. -/
inductive DecodeExit
  | allocCtxFail    -- avformat_alloc_context returned NULL
  | openInputFail   -- avformat_open_input < 0, goto free_ctx
  | streamInfoFail  -- avformat_find_stream_info < 0, goto close_input
  | bestStreamFail  -- av_find_best_stream < 0, goto close_input
  | findDecoderFail -- avcodec_find_decoder NULL, goto close_input
  | allocCodecFail  -- avcodec_alloc_context3 NULL, goto close_input
  | paramsFail      -- avcodec_parameters_to_context < 0, goto free_codec_ctx
  | open2Fail       -- avcodec_open2 < 0, goto free_codec_ctx
  | frameAllocFail  -- av_frame_alloc NULL, goto close_codec
  | packetAllocFail -- av_packet_alloc NULL, frame freed, goto close_codec
  | readFail        -- av_read_frame < 0, both freed, goto close_codec
  | sendFail        -- avcodec_send_packet < 0, both freed, goto close_codec
  | recvFail        -- avcodec_receive_frame != 0, both freed, goto close_codec
  | success
  deriving DecidableEq, Repr

/-- The first failing check of `decode_image` (icon.c lines 60-159),
testing the exact conditions of the C code in source order. -/
def decodeExit (env : DecodeEnv) : DecodeExit :=
  if !env.alloc_ctx_ok then DecodeExit.allocCtxFail
  else if env.open_input_ret < 0 then DecodeExit.openInputFail
  else if env.find_stream_info_ret < 0 then DecodeExit.streamInfoFail
  else if env.find_best_stream_ret < 0 then DecodeExit.bestStreamFail
  else if !env.find_decoder_ok then DecodeExit.findDecoderFail
  else if !env.alloc_codec_ctx_ok then DecodeExit.allocCodecFail
  else if env.parameters_to_context_ret < 0 then DecodeExit.paramsFail
  else if env.open2_ret < 0 then DecodeExit.open2Fail
  else if !env.frame_alloc_ok then DecodeExit.frameAllocFail
  else if !env.packet_alloc_ok then DecodeExit.packetAllocFail
  else if env.read_frame_ret < 0 then DecodeExit.readFail
  else if env.send_packet_ret < 0 then DecodeExit.sendFail
  else if env.receive_frame_ret ≠ 0 then DecodeExit.recvFail
  else DecodeExit.success

/-- Embedding of `decode_image` (icon.c lines 60-159): the result and event trace of
each exit.  The trace of a failing exit is the list of acquisitions
performed before the failing call followed by the releases executed by
the jumped-to cleanup labels.  `avformat_close_input` +
`avformat_free_context` release the container handle exactly once between
them (the former NULLs the pointer), and `avcodec_close` +
`avcodec_free_context` release the decoder context exactly once: each
pair is one `rel` event. -/
def decode_image (env : DecodeEnv) : Option AVFrame × List Ev :=
  match decodeExit env with
  | DecodeExit.allocCtxFail =>
    -- avformat_alloc_context failed: nothing acquired, return NULL
    (none, [])
  | DecodeExit.openInputFail =>
    -- goto free_ctx
    (none, [Ev.acq Res.fmtCtx, Ev.rel Res.fmtCtx])
  | DecodeExit.streamInfoFail =>
    -- goto close_input
    (none, [Ev.acq Res.fmtCtx, Ev.rel Res.fmtCtx])
  | DecodeExit.bestStreamFail =>
    -- goto close_input
    (none, [Ev.acq Res.fmtCtx, Ev.rel Res.fmtCtx])
  | DecodeExit.findDecoderFail =>
    -- goto close_input
    (none, [Ev.acq Res.fmtCtx, Ev.rel Res.fmtCtx])
  | DecodeExit.allocCodecFail =>
    -- goto close_input
    (none, [Ev.acq Res.fmtCtx, Ev.rel Res.fmtCtx])
  | DecodeExit.paramsFail =>
    -- goto free_codec_ctx
    (none, [Ev.acq Res.fmtCtx, Ev.acq Res.codecCtx,
            Ev.rel Res.codecCtx, Ev.rel Res.fmtCtx])
  | DecodeExit.open2Fail =>
    -- goto free_codec_ctx
    (none, [Ev.acq Res.fmtCtx, Ev.acq Res.codecCtx,
            Ev.rel Res.codecCtx, Ev.rel Res.fmtCtx])
  | DecodeExit.frameAllocFail =>
    -- goto close_codec
    (none, [Ev.acq Res.fmtCtx, Ev.acq Res.codecCtx,
            Ev.rel Res.codecCtx, Ev.rel Res.fmtCtx])
  | DecodeExit.packetAllocFail =>
    -- av_frame_free; goto close_codec
    (none, [Ev.acq Res.fmtCtx, Ev.acq Res.codecCtx, Ev.acq Res.frame,
            Ev.rel Res.frame, Ev.rel Res.codecCtx, Ev.rel Res.fmtCtx])
  | DecodeExit.readFail =>
    -- av_packet_free; av_frame_free; goto close_codec
    (none, [Ev.acq Res.fmtCtx, Ev.acq Res.codecCtx, Ev.acq Res.frame,
            Ev.acq Res.packet,
            Ev.rel Res.packet, Ev.rel Res.frame,
            Ev.rel Res.codecCtx, Ev.rel Res.fmtCtx])
  | DecodeExit.sendFail =>
    -- av_packet_free; av_frame_free; goto close_codec
    (none, [Ev.acq Res.fmtCtx, Ev.acq Res.codecCtx, Ev.acq Res.frame,
            Ev.acq Res.packet, Ev.sendPkt,
            Ev.rel Res.packet, Ev.rel Res.frame,
            Ev.rel Res.codecCtx, Ev.rel Res.fmtCtx])
  | DecodeExit.recvFail =>
    -- av_packet_free; av_frame_free; goto close_codec
    (none, [Ev.acq Res.fmtCtx, Ev.acq Res.codecCtx, Ev.acq Res.frame,
            Ev.acq Res.packet, Ev.sendPkt, Ev.recvFrm,
            Ev.rel Res.packet, Ev.rel Res.frame,
            Ev.rel Res.codecCtx, Ev.rel Res.fmtCtx])
  | DecodeExit.success =>
    -- av_packet_free; result = frame; fall through the cleanup labels
    (some env.decoded, decodeSuccessTrace)

/-- Embedding of `to_sdl_pixel_format` (icon.c lines 161-178): the fixed mapping table
from packed-RGB AVPixelFormat tags to SDL pixel-format tags. -/
def to_sdl_pixel_format : AVPixelFormat → SDLPixelFormat
  | AVPixelFormat.RGB24 => SDLPixelFormat.RGB24
  | AVPixelFormat.BGR24 => SDLPixelFormat.BGR24
  | AVPixelFormat.ARGB => SDLPixelFormat.ARGB32
  | AVPixelFormat.RGBA => SDLPixelFormat.RGBA32
  | AVPixelFormat.ABGR => SDLPixelFormat.ABGR32
  | AVPixelFormat.BGRA => SDLPixelFormat.BGRA32
  | AVPixelFormat.RGB565BE => SDLPixelFormat.RGB565
  | AVPixelFormat.RGB555BE => SDLPixelFormat.RGB555
  | AVPixelFormat.BGR565BE => SDLPixelFormat.BGR565
  | AVPixelFormat.BGR555BE => SDLPixelFormat.BGR555
  | AVPixelFormat.RGB444BE => SDLPixelFormat.RGB444
  | AVPixelFormat.BGR444BE => SDLPixelFormat.BGR444
  | _ => SDLPixelFormat.UNKNOWN

/-- The SDL_Surface fields set by `SDL_CreateRGBSurfaceWithFormatFrom`
plus the `userdata` field assigned by `load_from_path`. -/
structure SDL_Surface where
  pixels : Nat
  w : Int
  h : Int
  depth : Nat
  pitch : Int
  format : SDLPixelFormat
  userdata : Option AVFrame
  deriving DecidableEq, Repr

/-- The distinct failure branches of `load_from_path`, one per LOGE line
(the C function collapses them all into a NULL return). -/
inductive LoadError
  | decodeFailed          -- decode_image returned NULL
  | noFormatDescriptor    -- av_pix_fmt_desc_get returned NULL
  | unsupportedLayout     -- not packed RGB ("Could not load non-RGB icon")
  | unmappedFormat        -- table returned SDL_PIXELFORMAT_UNKNOWN
  | surfaceCreateFailed   -- SDL_CreateRGBSurfaceWithFormatFrom failed
  deriving DecidableEq, BEq, Repr

/-- Embedding of `load_from_path` (icon.c lines 180-227).  `surface_alloc_ok` models
whether `SDL_CreateRGBSurfaceWithFormatFrom` succeeds.  Every `goto error`
branch appends the `av_frame_free(&frame)` release to the decode trace.
On success the C code creates the surface and then stores the frame in
`surface->userdata`; the constructed record reflects the final state. -/
def load_from_path (env : DecodeEnv) (surface_alloc_ok : Bool) :
    Except LoadError SDL_Surface × List Ev :=
  match decode_image env with
  | (none, t) => (Except.error LoadError.decodeFailed, t)
  | (some frame, t) =>
    match av_pix_fmt_desc_get frame.format with
    | none =>
      -- goto error
      (Except.error LoadError.noFormatDescriptor, t ++ [Ev.rel Res.frame])
    | some desc =>
      let is_packed_rgb := desc.flagRGB && !desc.flagPlanar
      if !is_packed_rgb then
        -- goto error
        (Except.error LoadError.unsupportedLayout, t ++ [Ev.rel Res.frame])
      else
        let format := to_sdl_pixel_format frame.format
        if format = SDLPixelFormat.UNKNOWN then
          -- goto error
          (Except.error LoadError.unmappedFormat, t ++ [Ev.rel Res.frame])
        else
          let bits_per_pixel := av_get_bits_per_pixel desc
          if !surface_alloc_ok then
            -- goto error
            (Except.error LoadError.surfaceCreateFailed, t ++ [Ev.rel Res.frame])
          else
            (Except.ok
              { pixels := frame.data0, w := frame.width, h := frame.height,
                depth := bits_per_pixel, pitch := frame.linesize0,
                format := format, userdata := some frame },
             t)

/-- The compile-time default icon path
`PREFIX "/share/icons/hicolor/256x256/apps/scrcpy.png"`
(the PREFIX macro is kept as a literal placeholder). -/
def SCRCPY_DEFAULT_ICON_PATH : String :=
  "PREFIX/share/icons/hicolor/256x256/apps/scrcpy.png"

/-- Outcomes of the external calls made by `get_icon_path`. -/
structure PathEnv where
  icon_path_env : Option String
    -- getenv("SCRCPY_ICON_PATH") / _wgetenv result
  env_copy_ok : Bool
    -- strdup / utf8_from_wide_char of the override succeeds
  portable : Bool
    -- the compile-time PORTABLE configuration
  default_copy_ok : Bool
    -- strdup of SCRCPY_DEFAULT_ICON_PATH succeeds
  /-- Modelled from the spec: `get_local_file_path` (util/process, not in
  the sources) returns "a path relative to the running executable's own
  directory" for the portable icon filename, or NULL on failure. -/
  local_file_path : Option String
  deriving DecidableEq, Repr

/-- Embedding of `get_icon_path` (icon.c lines 19-58).  The Windows and POSIX variants
differ only in which copy primitive is used; both are modelled by
`env_copy_ok`.  The non-portable and portable variants are the two arms of
the compile-time `#ifndef PORTABLE`. -/
def get_icon_path (env : PathEnv) : Option String :=
  match env.icon_path_env with
  | some p =>
    -- if the envvar is set, use it
    if env.env_copy_ok then some p else none
  | none =>
    if !env.portable then
      if env.default_copy_ok then some SCRCPY_DEFAULT_ICON_PATH else none
    else
      env.local_file_path

def exceptToOption : Except LoadError SDL_Surface → Option SDL_Surface
  | Except.ok s => some s
  | Except.error _ => none

/-- Embedding of `scrcpy_icon_load` (icon.c lines 229-239).  The path string acquired by
a successful `get_icon_path` is recorded as `acq pathStr`; the final
`free(icon_path)` as `rel pathStr`. -/
def scrcpy_icon_load (penv : PathEnv) (denv : DecodeEnv)
    (surface_alloc_ok : Bool) : Option SDL_Surface × List Ev :=
  match get_icon_path penv with
  | none => (none, [])
  | some _icon_path =>
    let r := load_from_path denv surface_alloc_ok
    (exceptToOption r.1, (Ev.acq Res.pathStr :: r.2) ++ [Ev.rel Res.pathStr])

/-- Embedding of `scrcpy_icon_destroy` (icon.c lines 241-247).  `none` models the
`assert(frame)` failure (abort); otherwise the attached frame is released,
then the surface structure. -/
def scrcpy_icon_destroy (icon : SDL_Surface) : Option (List Ev) :=
  match icon.userdata with
  | none => none
  | some _frame => some [Ev.rel Res.frame, Ev.rel Res.surface]

/-- All resources, for the trace predicates below. -/
def allRes : List Res :=
  [Res.fmtCtx, Res.codecCtx, Res.frame, Res.packet, Res.pathStr, Res.surface]

/-- A trace is balanced when every resource is released exactly as many
times as it is acquired (no leak, no double free). -/
def balanced (t : List Ev) : Bool :=
  allRes.all fun r => t.count (Ev.acq r) == t.count (Ev.rel r)

def acqIndex (t : List Ev) (r : Res) : Option Nat :=
  t.findIdx? fun e => e == Ev.acq r

def relIndex (t : List Ev) (r : Res) : Option Nat :=
  t.findIdx? fun e => e == Ev.rel r

/-- Releases occur in reverse order of acquisition: whenever two resources
are both acquired and both released in the trace, the later-acquired one
is released first. -/
def reverseOrderRelease (t : List Ev) : Bool :=
  allRes.all fun r1 => allRes.all fun r2 =>
    match acqIndex t r1, acqIndex t r2, relIndex t r1, relIndex t r2 with
    | some i1, some i2, some j1, some j2 =>
      if i1 < i2 then decide (j2 < j1) else true
    | _, _, _, _ => true

/-- Success of every stage of `decode_image`, stated as the exact negations
of its early-exit conditions. -/
abbrev decodeOk (env : DecodeEnv) : Prop :=
  env.alloc_ctx_ok = true ∧ ¬env.open_input_ret < 0 ∧
  ¬env.find_stream_info_ret < 0 ∧ ¬env.find_best_stream_ret < 0 ∧
  env.find_decoder_ok = true ∧ env.alloc_codec_ctx_ok = true ∧
  ¬env.parameters_to_context_ret < 0 ∧ ¬env.open2_ret < 0 ∧
  env.frame_alloc_ok = true ∧ env.packet_alloc_ok = true ∧
  ¬env.read_frame_ret < 0 ∧ ¬env.send_packet_ret < 0 ∧
  env.receive_frame_ret = 0

/-- Success of every stage up to and including the frame and packet
allocations (the two buffers exist). -/
abbrev buffersAllocated (env : DecodeEnv) : Prop :=
  env.alloc_ctx_ok = true ∧ ¬env.open_input_ret < 0 ∧
  ¬env.find_stream_info_ret < 0 ∧ ¬env.find_best_stream_ret < 0 ∧
  env.find_decoder_ok = true ∧ env.alloc_codec_ctx_ok = true ∧
  ¬env.parameters_to_context_ret < 0 ∧ ¬env.open2_ret < 0 ∧
  env.frame_alloc_ok = true ∧ env.packet_alloc_ok = true

/-- The packet was submitted to the decoder: buffers allocated and the
read step succeeded, so `avcodec_send_packet` is reached. -/
abbrev packetSubmitted (env : DecodeEnv) : Prop :=
  buffersAllocated env ∧ ¬env.read_frame_ret < 0

/- Concrete environments used by witnesses and counterexamples. -/

/-- A 256x256 packed 32-bit RGBA frame (the spec's concrete scenario). -/
def frameRGBA : AVFrame :=
  { format := AVPixelFormat.RGBA, width := 256, height := 256,
    linesize0 := 1024, data0 := 1 }

/-- A planar YUV 4:2:0 frame (rejected by the SurfaceAdapter stage). -/
def frameYUV : AVFrame :=
  { format := AVPixelFormat.YUV420P, width := 64, height := 64,
    linesize0 := 64, data0 := 2 }

/-- A packed 48-bit RGB frame: packed RGB but absent from the table. -/
def frameRGB48 : AVFrame :=
  { format := AVPixelFormat.RGB48BE, width := 8, height := 8,
    linesize0 := 48, data0 := 3 }

/-- Every external call succeeds and the decoded frame is `frameRGBA`. -/
def envOkRGBA : DecodeEnv :=
  { alloc_ctx_ok := true, open_input_ret := 0, find_stream_info_ret := 0,
    find_best_stream_ret := 0, find_decoder_ok := true,
    alloc_codec_ctx_ok := true, parameters_to_context_ret := 0,
    open2_ret := 0, frame_alloc_ok := true, packet_alloc_ok := true,
    read_frame_ret := 0, send_packet_ret := 0, receive_frame_ret := 0,
    decoded := frameRGBA }

def envYUV : DecodeEnv :=
  { envOkRGBA with decoded := frameYUV }

def envRGB48 : DecodeEnv :=
  { envOkRGBA with decoded := frameRGB48 }

def envOpenFail : DecodeEnv :=
  { envOkRGBA with open_input_ret := -1 }

def envSendFail : DecodeEnv :=
  { envOkRGBA with send_packet_ret := -11 }

def envRecvFail : DecodeEnv :=
  { envOkRGBA with receive_frame_ret := -11 }

/-- Path environment: no override, non-portable build, copies succeed. -/
def penvDefault : PathEnv :=
  { icon_path_env := none, env_copy_ok := true, portable := false,
    default_copy_ok := true, local_file_path := none }

def penvEnvSet : PathEnv :=
  { penvDefault with icon_path_env := some "/tmp/icon.png" }

def penvEnvCopyFail : PathEnv :=
  { penvEnvSet with env_copy_ok := false }

def penvPortable : PathEnv :=
  { penvDefault with portable := true, local_file_path := some "icon.png" }

def penvPortableFail : PathEnv :=
  { penvDefault with portable := true }

/-- The surface produced from `envOkRGBA`. -/
def surfRGBA : SDL_Surface :=
  { pixels := 1, w := 256, h := 256, depth := 32, pitch := 1024,
    format := SDLPixelFormat.RGBA32, userdata := some frameRGBA }

/-- A surface whose attached frame is absent. -/
def surfNoFrame : SDL_Surface :=
  { pixels := 0, w := 0, h := 0, depth := 0, pitch := 0,
    format := SDLPixelFormat.UNKNOWN, userdata := none }

/- Helper lemmas shared by several claim theorems. -/

/-- When every early-exit condition is false, the exit is `success`. -/
theorem decodeExit_eq_success (env : DecodeEnv) (h : decodeOk env) :
    decodeExit env = DecodeExit.success := by
  obtain ⟨h1, h2, h3, h4, h5, h6, h7, h8, h9, h10, h11, h12, h13⟩ := h
  simp [decodeExit, h1, h2, h3, h4, h5, h6, h7, h8, h9, h10, h11, h12, h13]

/-- When every stage succeeds, `decode_image` returns the decoded frame
with the success trace. -/
theorem decode_image_of_ok (env : DecodeEnv) (h : decodeOk env) :
    decode_image env = (some env.decoded, decodeSuccessTrace) := by
  simp [decode_image, decodeExit_eq_success env h]

/-- Every run of `decode_image` either fails with a balanced,
reverse-ordered trace free of path-string events, or succeeds with the
success trace. -/
theorem decode_image_spec (env : DecodeEnv) :
    (∃ t, decode_image env = (none, t) ∧ balanced t = true ∧
        reverseOrderRelease t = true ∧
        t.count (Ev.acq Res.pathStr) = 0 ∧ t.count (Ev.rel Res.pathStr) = 0) ∨
    decode_image env = (some env.decoded, decodeSuccessTrace) := by
  unfold decode_image
  rcases h : decodeExit env <;>
    first
      | exact Or.inr rfl
      | exact Or.inl ⟨_, rfl, by decide, by decide, by decide, by decide⟩

/-- Every run of `load_from_path` either fails with a balanced trace free
of path-string events (ending in the frame release unless the decode
itself failed), or succeeds with the decode success trace and a fully
populated surface borrowing the decoded frame. -/
theorem load_from_path_spec (env : DecodeEnv) (b : Bool) :
    (∃ e t, load_from_path env b = (Except.error e, t) ∧ balanced t = true ∧
        t.count (Ev.acq Res.pathStr) = 0 ∧ t.count (Ev.rel Res.pathStr) = 0 ∧
        (e ≠ LoadError.decodeFailed → t.getLast? = some (Ev.rel Res.frame))) ∨
    (∃ s, load_from_path env b = (Except.ok s, decodeSuccessTrace) ∧
        s.userdata = some env.decoded ∧ s.w = env.decoded.width ∧
        s.h = env.decoded.height ∧ s.pitch = env.decoded.linesize0 ∧
        s.pixels = env.decoded.data0 ∧
        s.format = to_sdl_pixel_format env.decoded.format) := by
  rcases decode_image_spec env with ⟨t, hd, hb, _hro, ha, hr⟩ | hd
  · refine Or.inl ⟨LoadError.decodeFailed, t, ?_, hb, ha, hr, ?_⟩
    · simp [load_from_path, hd]
    · intro hne; exact absurd rfl hne
  · rcases hfmt : av_pix_fmt_desc_get env.decoded.format with _ | d
    · refine Or.inl ⟨LoadError.noFormatDescriptor,
        decodeSuccessTrace ++ [Ev.rel Res.frame], ?_,
        by decide, by decide, by decide, fun _ => by decide⟩
      simp [load_from_path, hd, hfmt]
    · by_cases hrgb : (d.flagRGB && !d.flagPlanar) = true
      · by_cases hu :
          to_sdl_pixel_format env.decoded.format = SDLPixelFormat.UNKNOWN
        · refine Or.inl ⟨LoadError.unmappedFormat,
            decodeSuccessTrace ++ [Ev.rel Res.frame], ?_,
            by decide, by decide, by decide, fun _ => by decide⟩
          simp [load_from_path, hd, hfmt, hrgb, hu]
        · cases b
          · refine Or.inl ⟨LoadError.surfaceCreateFailed,
              decodeSuccessTrace ++ [Ev.rel Res.frame], ?_,
              by decide, by decide, by decide, fun _ => by decide⟩
            simp [load_from_path, hd, hfmt, hrgb, hu]
          · have hok : load_from_path env true =
                (Except.ok
                  { pixels := env.decoded.data0, w := env.decoded.width,
                    h := env.decoded.height,
                    depth := av_get_bits_per_pixel d,
                    pitch := env.decoded.linesize0,
                    format := to_sdl_pixel_format env.decoded.format,
                    userdata := some env.decoded },
                 decodeSuccessTrace) := by
              simp [load_from_path, hd, hfmt, hrgb, hu]
            exact Or.inr ⟨_, hok, rfl, rfl, rfl, rfl, rfl, rfl⟩
      · refine Or.inl ⟨LoadError.unsupportedLayout,
          decodeSuccessTrace ++ [Ev.rel Res.frame], ?_,
          by decide, by decide, by decide, fun _ => by decide⟩
        simp [load_from_path, hd, hfmt, hrgb]

/-- A `success` exit implies the submit and request statuses passed the
checks of the C code (`ret < 0` for submit, `ret != 0` for request). -/
theorem decodeExit_success_imp (env : DecodeEnv)
    (h : decodeExit env = DecodeExit.success) :
    ¬env.send_packet_ret < 0 ∧ env.receive_frame_ret = 0 := by
  unfold decodeExit at h
  by_cases g1 : (!env.alloc_ctx_ok) = true
  · rw [if_pos g1] at h; exact DecodeExit.noConfusion h
  rw [if_neg g1] at h
  by_cases g2 : env.open_input_ret < 0
  · rw [if_pos g2] at h; exact DecodeExit.noConfusion h
  rw [if_neg g2] at h
  by_cases g3 : env.find_stream_info_ret < 0
  · rw [if_pos g3] at h; exact DecodeExit.noConfusion h
  rw [if_neg g3] at h
  by_cases g4 : env.find_best_stream_ret < 0
  · rw [if_pos g4] at h; exact DecodeExit.noConfusion h
  rw [if_neg g4] at h
  by_cases g5 : (!env.find_decoder_ok) = true
  · rw [if_pos g5] at h; exact DecodeExit.noConfusion h
  rw [if_neg g5] at h
  by_cases g6 : (!env.alloc_codec_ctx_ok) = true
  · rw [if_pos g6] at h; exact DecodeExit.noConfusion h
  rw [if_neg g6] at h
  by_cases g7 : env.parameters_to_context_ret < 0
  · rw [if_pos g7] at h; exact DecodeExit.noConfusion h
  rw [if_neg g7] at h
  by_cases g8 : env.open2_ret < 0
  · rw [if_pos g8] at h; exact DecodeExit.noConfusion h
  rw [if_neg g8] at h
  by_cases g9 : (!env.frame_alloc_ok) = true
  · rw [if_pos g9] at h; exact DecodeExit.noConfusion h
  rw [if_neg g9] at h
  by_cases g10 : (!env.packet_alloc_ok) = true
  · rw [if_pos g10] at h; exact DecodeExit.noConfusion h
  rw [if_neg g10] at h
  by_cases g11 : env.read_frame_ret < 0
  · rw [if_pos g11] at h; exact DecodeExit.noConfusion h
  rw [if_neg g11] at h
  by_cases g12 : env.send_packet_ret < 0
  · rw [if_pos g12] at h; exact DecodeExit.noConfusion h
  rw [if_neg g12] at h
  by_cases g13 : env.receive_frame_ret ≠ 0
  · rw [if_pos g13] at h; exact DecodeExit.noConfusion h
  exact ⟨g12, not_not.mp g13⟩

/-- C1: for every input whose path resolves and that decodes to a frame
whose pixel format is packed RGB and present in the fixed mapping table
(and whose SDL surface allocation succeeds), `scrcpy_icon_load` via
`load_from_path` returns a surface whose width and height equal the
decoded frame's width and height and whose format tag is
`to_sdl_pixel_format` applied to the frame's pixel format. -/
theorem C1_load_packed_rgb_surface (penv : PathEnv) (env : DecodeEnv)
    (p : String) (hpath : get_icon_path penv = some p)
    (hdec : decodeOk env) (d : AVPixFmtDescriptor)
    (hdesc : av_pix_fmt_desc_get env.decoded.format = some d)
    (hrgb : d.flagRGB = true) (hpl : d.flagPlanar = false)
    (hmap : to_sdl_pixel_format env.decoded.format ≠ SDLPixelFormat.UNKNOWN) :
    ∃ s, (scrcpy_icon_load penv env true).1 = some s ∧
      s.w = env.decoded.width ∧ s.h = env.decoded.height ∧
      s.format = to_sdl_pixel_format env.decoded.format := by
  have hd := decode_image_of_ok env hdec
  have hok : load_from_path env true =
      (Except.ok
        { pixels := env.decoded.data0, w := env.decoded.width,
          h := env.decoded.height, depth := av_get_bits_per_pixel d,
          pitch := env.decoded.linesize0,
          format := to_sdl_pixel_format env.decoded.format,
          userdata := some env.decoded },
       decodeSuccessTrace) := by
    simp [load_from_path, hd, hdesc, hrgb, hpl, hmap]
  have hload : (scrcpy_icon_load penv env true).1 =
      some
        { pixels := env.decoded.data0, w := env.decoded.width,
          h := env.decoded.height, depth := av_get_bits_per_pixel d,
          pitch := env.decoded.linesize0,
          format := to_sdl_pixel_format env.decoded.format,
          userdata := some env.decoded } := by
    simp [scrcpy_icon_load, hpath, hok, exceptToOption]
  exact ⟨_, hload, rfl, rfl, rfl⟩

theorem C1_witness :
    ∃ s, (scrcpy_icon_load penvDefault envOkRGBA true).1 = some s ∧
      s.w = envOkRGBA.decoded.width ∧ s.h = envOkRGBA.decoded.height ∧
      s.format = to_sdl_pixel_format envOkRGBA.decoded.format :=
  C1_load_packed_rgb_surface penvDefault envOkRGBA SCRCPY_DEFAULT_ICON_PATH
    rfl (by decide) descRGBA rfl rfl rfl (by decide)

/-- C2: for every decoded frame with a format descriptor,
`load_from_path` fails on the unsupported-layout branch exactly when the
descriptor lacks the RGB flag or has the planar flag, fails on the
distinct unmapped-format branch exactly when the format is packed RGB but
maps to `SDL_PIXELFORMAT_UNKNOWN`; the two branches are disjoint, and
when neither condition holds no format-based rejection occurs (the result
is a surface or an SDL allocation failure). -/
theorem C2_format_based_rejections (env : DecodeEnv) (b : Bool)
    (hdec : decodeOk env) (d : AVPixFmtDescriptor)
    (hdesc : av_pix_fmt_desc_get env.decoded.format = some d) :
    ((load_from_path env b).1 = Except.error LoadError.unsupportedLayout ↔
      ¬(d.flagRGB = true ∧ d.flagPlanar = false)) ∧
    ((load_from_path env b).1 = Except.error LoadError.unmappedFormat ↔
      (d.flagRGB = true ∧ d.flagPlanar = false ∧
       to_sdl_pixel_format env.decoded.format = SDLPixelFormat.UNKNOWN)) ∧
    ¬((load_from_path env b).1 = Except.error LoadError.unsupportedLayout ∧
      (load_from_path env b).1 = Except.error LoadError.unmappedFormat) ∧
    ((d.flagRGB = true ∧ d.flagPlanar = false ∧
      to_sdl_pixel_format env.decoded.format ≠ SDLPixelFormat.UNKNOWN) →
      (load_from_path env b).1 = Except.error LoadError.surfaceCreateFailed ∨
      ∃ s, (load_from_path env b).1 = Except.ok s) := by
  have hd := decode_image_of_ok env hdec
  cases hR : d.flagRGB with
  | false =>
    have hv : (load_from_path env b).1 = Except.error LoadError.unsupportedLayout := by
      simp [load_from_path, hd, hdesc, hR]
    simp [hv, hR]
  | true =>
    cases hP : d.flagPlanar with
    | true =>
      have hv : (load_from_path env b).1 = Except.error LoadError.unsupportedLayout := by
        simp [load_from_path, hd, hdesc, hR, hP]
      simp [hv, hP]
    | false =>
      by_cases hu :
          to_sdl_pixel_format env.decoded.format = SDLPixelFormat.UNKNOWN
      · have hv : (load_from_path env b).1 = Except.error LoadError.unmappedFormat := by
          simp [load_from_path, hd, hdesc, hR, hP, hu]
        simp [hv, hR, hP, hu]
      · cases b with
        | false =>
          have hv : (load_from_path env false).1 =
              Except.error LoadError.surfaceCreateFailed := by
            simp [load_from_path, hd, hdesc, hR, hP, hu]
          simp [hv, hR, hP, hu]
        | true =>
          have hv : (load_from_path env true).1 =
              Except.ok
                { pixels := env.decoded.data0, w := env.decoded.width,
                  h := env.decoded.height, depth := av_get_bits_per_pixel d,
                  pitch := env.decoded.linesize0,
                  format := to_sdl_pixel_format env.decoded.format,
                  userdata := some env.decoded } := by
            simp [load_from_path, hd, hdesc, hR, hP, hu]
          simp [hv, hR, hP, hu]

theorem C2_witness :
    ((load_from_path envYUV true).1 = Except.error LoadError.unsupportedLayout ↔
      ¬(descYUV420P.flagRGB = true ∧ descYUV420P.flagPlanar = false)) ∧
    ((load_from_path envYUV true).1 = Except.error LoadError.unmappedFormat ↔
      (descYUV420P.flagRGB = true ∧ descYUV420P.flagPlanar = false ∧
       to_sdl_pixel_format envYUV.decoded.format = SDLPixelFormat.UNKNOWN)) ∧
    ¬((load_from_path envYUV true).1 = Except.error LoadError.unsupportedLayout ∧
      (load_from_path envYUV true).1 = Except.error LoadError.unmappedFormat) ∧
    ((descYUV420P.flagRGB = true ∧ descYUV420P.flagPlanar = false ∧
      to_sdl_pixel_format envYUV.decoded.format ≠ SDLPixelFormat.UNKNOWN) →
      (load_from_path envYUV true).1 = Except.error LoadError.surfaceCreateFailed ∨
      ∃ s, (load_from_path envYUV true).1 = Except.ok s) :=
  C2_format_based_rejections envYUV true (by decide) descYUV420P rfl

/-- C3: given the framework contract that the submit status is never
positive, any non-zero status from the submit or the request step makes
`decode_image` fail (return NULL), and the trace shows at most one submit
and at most one request: no retry, no draining of additional frames. -/
theorem C3_decode_single_attempt (env : DecodeEnv)
    (hsend : env.send_packet_ret ≤ 0)
    (hfail : env.send_packet_ret ≠ 0 ∨ env.receive_frame_ret ≠ 0) :
    (decode_image env).1 = none ∧
    (decode_image env).2.count Ev.sendPkt ≤ 1 ∧
    (decode_image env).2.count Ev.recvFrm ≤ 1 := by
  unfold decode_image
  rcases h : decodeExit env <;>
    try (refine ⟨rfl, ?_, ?_⟩ <;>
          first
            | exact Nat.zero_le 1
            | exact Nat.le_refl 1)
  exfalso
  obtain ⟨hs, hr⟩ := decodeExit_success_imp env h
  rcases hfail with hf | hf
  · omega
  · exact hf hr

theorem C3_witness :
    (decode_image envSendFail).1 = none ∧
    (decode_image envSendFail).2.count Ev.sendPkt ≤ 1 ∧
    (decode_image envSendFail).2.count Ev.recvFrm ≤ 1 :=
  C3_decode_single_attempt envSendFail (by decide) (Or.inl (by decide))

/-- When the path resolves, `scrcpy_icon_load` wraps the `load_from_path`
result and brackets its trace with the path-string acquire/release. -/
theorem scrcpy_icon_load_eq_of_path (penv : PathEnv) (denv : DecodeEnv)
    (b : Bool) (p : String) (hp : get_icon_path penv = some p) :
    scrcpy_icon_load penv denv b =
      (exceptToOption (load_from_path denv b).1,
       (Ev.acq Res.pathStr :: (load_from_path denv b).2) ++
         [Ev.rel Res.pathStr]) := by
  unfold scrcpy_icon_load
  rw [hp]

/-- When the path does not resolve, `scrcpy_icon_load` returns NULL
without touching any other resource. -/
theorem scrcpy_icon_load_eq_of_no_path (penv : PathEnv) (denv : DecodeEnv)
    (b : Bool) (hp : get_icon_path penv = none) :
    scrcpy_icon_load penv denv b = (none, []) := by
  unfold scrcpy_icon_load
  rw [hp]

/-- C4 counterexample: a decode that succeeds with a planar YUV frame
makes `load_from_path` fail, and on that failing execution the frame is
released (by the `error` label) only after the decoder context and the
container handle have already been released (inside `decode_image`), so
the releases are NOT in reverse order of acquisition. -/
theorem C4_counterexample :
    (load_from_path envYUV true).1 =
      Except.error LoadError.unsupportedLayout ∧
    (load_from_path envYUV true).2 =
      [Ev.acq Res.fmtCtx, Ev.acq Res.codecCtx, Ev.acq Res.frame,
       Ev.acq Res.packet, Ev.sendPkt, Ev.recvFrm,
       Ev.rel Res.packet, Ev.rel Res.codecCtx, Ev.rel Res.fmtCtx,
       Ev.rel Res.frame] ∧
    reverseOrderRelease (load_from_path envYUV true).2 = false := by
  exact ⟨rfl, rfl, rfl⟩

/-- C4 (amended): on every failing run, exactly the acquired resources
are released (balanced trace, no leak); within `decode_image` the
releases are in reverse order of acquisition; on a `load_from_path`
failure after a successful decode the frame release is the last event,
occurring after the decoder context and container handle were already
released by `decode_image`. -/
theorem C4_cleanup_exact_release :
    (∀ env, (decode_image env).1 = none →
       balanced (decode_image env).2 = true ∧
       reverseOrderRelease (decode_image env).2 = true) ∧
    (∀ env b e, (load_from_path env b).1 = Except.error e →
       balanced (load_from_path env b).2 = true) ∧
    (∀ env b e, (load_from_path env b).1 = Except.error e →
       e ≠ LoadError.decodeFailed →
       (load_from_path env b).2.getLast? = some (Ev.rel Res.frame)) := by
  refine ⟨?_, ?_, ?_⟩
  · intro env hn
    rcases decode_image_spec env with ⟨t, hd, hb, hro, _, _⟩ | hd
    · rw [hd]
      exact ⟨hb, hro⟩
    · rw [hd] at hn
      exact absurd hn (by simp)
  · intro env b e he
    rcases load_from_path_spec env b with ⟨e2, t, hd, hb, _, _, _⟩ | ⟨s, hd, _⟩
    · rw [hd]
      exact hb
    · rw [hd] at he
      exact absurd he (by simp)
  · intro env b e he hne
    rcases load_from_path_spec env b with ⟨e2, t, hd, _, _, _, hl⟩ | ⟨s, hd, _⟩
    · rw [hd] at he
      have he2 : e2 = e := by simpa using he
      subst he2
      rw [hd]
      exact hl hne
    · rw [hd] at he
      exact absurd he (by simp)

theorem C4_witness :
    (balanced (decode_image envOpenFail).2 = true ∧
     reverseOrderRelease (decode_image envOpenFail).2 = true) ∧
    balanced (load_from_path envYUV true).2 = true ∧
    (load_from_path envYUV true).2.getLast? = some (Ev.rel Res.frame) :=
  ⟨C4_cleanup_exact_release.1 envOpenFail rfl,
   C4_cleanup_exact_release.2.1 envYUV true LoadError.unsupportedLayout rfl,
   C4_cleanup_exact_release.2.2 envYUV true LoadError.unsupportedLayout rfl
     (by decide)⟩

/-- C5: every invocation of `scrcpy_icon_load` returns either NULL or a
complete surface: one whose attached frame is present and whose width,
height, pitch, pixel memory and format all come from that frame.  The
function is total (modelled as a Lean function), so it never raises. -/
theorem C5_no_partial_surface (penv : PathEnv) (denv : DecodeEnv)
    (b : Bool) :
    (scrcpy_icon_load penv denv b).1 = none ∨
    ∃ s, (scrcpy_icon_load penv denv b).1 = some s ∧
      ∃ f, s.userdata = some f ∧ s.w = f.width ∧ s.h = f.height ∧
        s.pitch = f.linesize0 ∧ s.pixels = f.data0 ∧
        s.format = to_sdl_pixel_format f.format := by
  rcases hp : get_icon_path penv with _ | p
  · rw [scrcpy_icon_load_eq_of_no_path penv denv b hp]
    exact Or.inl rfl
  · rcases load_from_path_spec denv b with ⟨e, t, hd, _, _, _, _⟩ |
      ⟨s, hd, hu, hw, hh, hpi, hpx, hf⟩
    · refine Or.inl ?_
      rw [scrcpy_icon_load_eq_of_path penv denv b p hp, hd]
      rfl
    · refine Or.inr ⟨s, ?_, denv.decoded, hu, hw, hh, hpi, hpx, hf⟩
      rw [scrcpy_icon_load_eq_of_path penv denv b p hp, hd]
      rfl

/-- Once the two buffers are allocated, the remaining control flow of
`decode_image` is decided by the read, submit and request statuses. -/
theorem decodeExit_of_buffers (env : DecodeEnv) (h : buffersAllocated env) :
    decodeExit env =
      if env.read_frame_ret < 0 then DecodeExit.readFail
      else if env.send_packet_ret < 0 then DecodeExit.sendFail
      else if env.receive_frame_ret ≠ 0 then DecodeExit.recvFail
      else DecodeExit.success := by
  obtain ⟨h1, h2, h3, h4, h5, h6, h7, h8, h9, h10⟩ := h
  simp [decodeExit, h1, h2, h3, h4, h5, h6, h7, h8, h9, h10]

/-- C6: on every path on which the packet is submitted to the decoder
(submit fails, request fails, or neither), the compressed-unit buffer is
released exactly once; and on any failure after both buffers are
allocated, both the frame buffer and the compressed-unit buffer are
released before `decode_image` signals failure. -/
theorem C6_packet_released_exactly_once :
    (∀ env, packetSubmitted env →
       (decode_image env).2.count (Ev.rel Res.packet) = 1) ∧
    (∀ env, buffersAllocated env → (decode_image env).1 = none →
       (decode_image env).2.count (Ev.rel Res.frame) = 1 ∧
       (decode_image env).2.count (Ev.rel Res.packet) = 1) := by
  constructor
  · rintro env ⟨hb, hread⟩
    have hx := decodeExit_of_buffers env hb
    rw [if_neg hread] at hx
    by_cases hs : env.send_packet_ret < 0
    · rw [if_pos hs] at hx
      unfold decode_image
      rw [hx]
      rfl
    rw [if_neg hs] at hx
    by_cases hr : env.receive_frame_ret ≠ 0
    · rw [if_pos hr] at hx
      unfold decode_image
      rw [hx]
      rfl
    rw [if_neg hr] at hx
    unfold decode_image
    rw [hx]
    rfl
  · rintro env hb hn
    have hx := decodeExit_of_buffers env hb
    by_cases hread : env.read_frame_ret < 0
    · rw [if_pos hread] at hx
      unfold decode_image
      rw [hx]
      exact ⟨rfl, rfl⟩
    rw [if_neg hread] at hx
    by_cases hs : env.send_packet_ret < 0
    · rw [if_pos hs] at hx
      unfold decode_image
      rw [hx]
      exact ⟨rfl, rfl⟩
    rw [if_neg hs] at hx
    by_cases hr : env.receive_frame_ret ≠ 0
    · rw [if_pos hr] at hx
      unfold decode_image
      rw [hx]
      exact ⟨rfl, rfl⟩
    rw [if_neg hr] at hx
    exfalso
    unfold decode_image at hn
    rw [hx] at hn
    exact Option.noConfusion hn

theorem C6_witness :
    (decode_image envRecvFail).2.count (Ev.rel Res.packet) = 1 ∧
    ((decode_image envRecvFail).2.count (Ev.rel Res.frame) = 1 ∧
     (decode_image envRecvFail).2.count (Ev.rel Res.packet) = 1) :=
  ⟨C6_packet_released_exactly_once.1 envRecvFail (by decide),
   C6_packet_released_exactly_once.2 envRecvFail (by decide) rfl⟩

/-- C7: applied to a surface previously returned by `scrcpy_icon_load`,
`scrcpy_icon_destroy` releases the attached frame and then the surface
structure, each exactly once; applied to a surface whose attached frame
is absent, it hits the `assert(frame)` (modelled as `none`) instead of
recovering. -/
theorem C7_destroy_releases_frame_then_surface (penv : PathEnv)
    (denv : DecodeEnv) (b : Bool) (s : SDL_Surface) :
    ((scrcpy_icon_load penv denv b).1 = some s →
       scrcpy_icon_destroy s = some [Ev.rel Res.frame, Ev.rel Res.surface]) ∧
    (s.userdata = none → scrcpy_icon_destroy s = none) := by
  constructor
  · intro h
    rcases hp : get_icon_path penv with _ | p
    · rw [scrcpy_icon_load_eq_of_no_path penv denv b hp] at h
      exact absurd h (by simp)
    · rcases load_from_path_spec denv b with ⟨e, t, hd, _, _, _, _⟩ |
        ⟨s2, hd, hu, _, _, _, _, _⟩
      · rw [scrcpy_icon_load_eq_of_path penv denv b p hp, hd] at h
        exact absurd h (by simp [exceptToOption])
      · rw [scrcpy_icon_load_eq_of_path penv denv b p hp, hd] at h
        simp only [exceptToOption, Option.some.injEq] at h
        subst h
        unfold scrcpy_icon_destroy
        rw [hu]
  · intro h
    unfold scrcpy_icon_destroy
    rw [h]

theorem C7_witness :
    scrcpy_icon_destroy surfRGBA =
      some [Ev.rel Res.frame, Ev.rel Res.surface] ∧
    scrcpy_icon_destroy surfNoFrame = none :=
  ⟨(C7_destroy_releases_frame_then_surface penvDefault envOkRGBA true
      surfRGBA).1 rfl,
   (C7_destroy_releases_frame_then_surface penvDefault envOkRGBA true
      surfNoFrame).2 rfl⟩

/-- C8: `get_icon_path` returns, in priority order, the
environment-variable override (or NULL when copying it fails), else — in
a non-portable build — the fixed install-prefix path (or NULL when the
copy fails), else — in a portable build — the path next to the running
executable; it returns NULL exactly when no path could be resolved or
memory for the path could not be allocated. -/
theorem C8_icon_path_priority :
    (∀ penv p, penv.icon_path_env = some p →
       get_icon_path penv =
         if penv.env_copy_ok then some p else none) ∧
    (∀ penv, penv.icon_path_env = none → penv.portable = false →
       get_icon_path penv =
         if penv.default_copy_ok then some SCRCPY_DEFAULT_ICON_PATH
         else none) ∧
    (∀ penv, penv.icon_path_env = none → penv.portable = true →
       get_icon_path penv = penv.local_file_path) ∧
    (∀ penv, get_icon_path penv = none ↔
       ((∃ p, penv.icon_path_env = some p) ∧ penv.env_copy_ok = false) ∨
       (penv.icon_path_env = none ∧ penv.portable = false ∧
        penv.default_copy_ok = false) ∨
       (penv.icon_path_env = none ∧ penv.portable = true ∧
        penv.local_file_path = none)) := by
  refine ⟨?_, ?_, ?_, ?_⟩
  · intro penv p hp
    simp [get_icon_path, hp]
  · intro penv hp hpor
    simp [get_icon_path, hp, hpor]
  · intro penv hp hpor
    simp [get_icon_path, hp, hpor]
  · intro penv
    rcases hp : penv.icon_path_env with _ | p <;>
      cases hpor : penv.portable <;>
      cases hc : penv.env_copy_ok <;>
      cases hdc : penv.default_copy_ok <;>
      simp [get_icon_path, hp, hpor, hc, hdc]

theorem C8_witness :
    get_icon_path penvEnvSet =
      (if penvEnvSet.env_copy_ok then some "/tmp/icon.png" else none) ∧
    get_icon_path penvEnvCopyFail =
      (if penvEnvCopyFail.env_copy_ok then some "/tmp/icon.png" else none) ∧
    get_icon_path penvDefault =
      (if penvDefault.default_copy_ok then some SCRCPY_DEFAULT_ICON_PATH
       else none) ∧
    get_icon_path penvPortable = penvPortable.local_file_path ∧
    get_icon_path penvPortableFail = penvPortableFail.local_file_path :=
  ⟨C8_icon_path_priority.1 penvEnvSet "/tmp/icon.png" rfl,
   C8_icon_path_priority.1 penvEnvCopyFail "/tmp/icon.png" rfl,
   C8_icon_path_priority.2.1 penvDefault rfl rfl,
   C8_icon_path_priority.2.2.1 penvPortable rfl rfl,
   C8_icon_path_priority.2.2.1 penvPortableFail rfl rfl⟩

/-- C9: every surface successfully returned by `scrcpy_icon_load` has its
`userdata` field set to the (non-NULL) decoded frame whose pixel memory
it borrows, so the `assert(frame)` in `scrcpy_icon_destroy` holds for
every such surface. -/
theorem C9_surface_userdata_invariant (penv : PathEnv) (denv : DecodeEnv)
    (b : Bool) (s : SDL_Surface)
    (h : (scrcpy_icon_load penv denv b).1 = some s) :
    s.userdata = some denv.decoded ∧ scrcpy_icon_destroy s ≠ none := by
  rcases hp : get_icon_path penv with _ | p
  · rw [scrcpy_icon_load_eq_of_no_path penv denv b hp] at h
    exact absurd h (by simp)
  · rcases load_from_path_spec denv b with ⟨e, t, hd, _, _, _, _⟩ |
      ⟨s2, hd, hu, _, _, _, _, _⟩
    · rw [scrcpy_icon_load_eq_of_path penv denv b p hp, hd] at h
      exact absurd h (by simp [exceptToOption])
    · rw [scrcpy_icon_load_eq_of_path penv denv b p hp, hd] at h
      simp only [exceptToOption, Option.some.injEq] at h
      subst h
      refine ⟨hu, ?_⟩
      unfold scrcpy_icon_destroy
      rw [hu]
      simp

theorem C9_witness :
    surfRGBA.userdata = some envOkRGBA.decoded ∧
    scrcpy_icon_destroy surfRGBA ≠ none :=
  C9_surface_userdata_invariant penvDefault envOkRGBA true surfRGBA rfl

/-- C10: whenever path resolution succeeds, `scrcpy_icon_load` acquires
the path string once and frees it exactly once, as the final action of
the call, whether `load_from_path` returns a surface or NULL. -/
theorem C10_path_string_freed (penv : PathEnv) (denv : DecodeEnv)
    (b : Bool) (p : String) (hp : get_icon_path penv = some p) :
    (scrcpy_icon_load penv denv b).2.count (Ev.acq Res.pathStr) = 1 ∧
    (scrcpy_icon_load penv denv b).2.count (Ev.rel Res.pathStr) = 1 ∧
    (scrcpy_icon_load penv denv b).2.getLast? =
      some (Ev.rel Res.pathStr) := by
  rw [scrcpy_icon_load_eq_of_path penv denv b p hp]
  rcases load_from_path_spec denv b with ⟨e, t, hd, _, ha, hr, _⟩ |
    ⟨s, hd, _, _, _, _, _, _⟩
  · rw [hd]
    refine ⟨?_, ?_, ?_⟩
    · simp [List.count_append, List.count_cons, ha]
      decide
    · simp [List.count_append, List.count_cons, hr]
      decide
    · rw [List.getLast?_concat]
  · rw [hd]
    exact ⟨rfl, rfl, rfl⟩

theorem C10_witness :
    (scrcpy_icon_load penvDefault envOkRGBA true).2.count
      (Ev.acq Res.pathStr) = 1 ∧
    (scrcpy_icon_load penvDefault envOkRGBA true).2.count
      (Ev.rel Res.pathStr) = 1 ∧
    (scrcpy_icon_load penvDefault envOkRGBA true).2.getLast? =
      some (Ev.rel Res.pathStr) :=
  C10_path_string_freed penvDefault envOkRGBA true
    SCRCPY_DEFAULT_ICON_PATH rfl
